import Mathlib

/-
  Verification of the API client / response-normalization layer of the
  Pest-Free-Web-App repository (apiService.js).

  The embedding models JavaScript JSON values as the inductive type `JsonVal`
  (JSON cannot express `undefined`, so an absent object field is represented
  by `Option.none` from the field-lookup `JsonVal.get?`). Numbers are `Int`:
  no claim exercises non-integer numerics. The stateful module-level
  `authToken` variable and the durable AsyncStorage entry become an explicit
  `AuthState` record threaded through the token-lifecycle operations. The
  network is an oracle: `request` is a pure function of the fetch outcome
  (thrown error, or status plus body text), and multi-endpoint operations
  take a transport function from endpoint and payload to a result.
-/

namespace ApiService

/-- A JavaScript JSON value, as produced by JSON.parse. -/
inductive JsonVal where
  | null
  | bool (b : Bool)
  | num (n : Int)
  | str (s : String)
  | arr (elems : List JsonVal)
  | obj (fields : List (String × JsonVal))

/-- JavaScript truthiness of a JSON value: null, false, 0 and the empty
    string are falsy; every array and object is truthy. -/
def JsonVal.truthy : JsonVal → Bool
  | JsonVal.null => false
  | JsonVal.bool b => b
  | JsonVal.num n => n != 0
  | JsonVal.str s => s != ""
  | JsonVal.arr _ => true
  | JsonVal.obj _ => true

/-- Property access `v.k`: a field lookup on an object, `none` (JS
    `undefined`) on every non-object and on a missing key. -/
def JsonVal.get? : JsonVal → String → Option JsonVal
  | JsonVal.obj fields, k => fields.lookup k
  | _, _ => none

/-- Truthiness of a possibly-undefined value, as in `x?.f` used as a
    condition: `undefined` is falsy. -/
def truthyOpt : Option JsonVal → Bool
  | some v => v.truthy
  | none => false

/-- JS strict equality `x === false` on a possibly-undefined value. -/
def strictFalse : Option JsonVal → Bool
  | some (JsonVal.bool false) => true
  | _ => false

/-- JS strict equality `x === true` on a possibly-undefined value. -/
def strictTrue : Option JsonVal → Bool
  | some (JsonVal.bool true) => true
  | _ => false

/-- JS strict equality `x === "s"` on a possibly-undefined value. -/
def strictEqStr : Option JsonVal → String → Bool
  | some (JsonVal.str t), s => t == s
  | _, _ => false

/-- JS nullish coalescing `a ?? d`: the default replaces only null and
    undefined, never other falsy values. -/
def jsCoalesce : Option JsonVal → JsonVal → JsonVal
  | some JsonVal.null, d => d
  | some v, _ => v
  | none, d => d

/-- JS logical-or defaulting `a || d`: the default replaces every falsy
    value (null, undefined, false, 0, the empty string). -/
def jsOr : Option JsonVal → JsonVal → JsonVal
  | some v, d => if v.truthy then v else d
  | none, d => d

/-- `Array.isArray(x)` combined with extraction of the elements; `none` for
    undefined and for every non-array value. Note that in the source the
    guards of the form `x && Array.isArray(x)` are equivalent to
    `Array.isArray(x)` because an array is always truthy. -/
def getArr? : Option JsonVal → Option (List JsonVal)
  | some (JsonVal.arr l) => some l
  | _ => none

/-- Length of an array value (0 on non-arrays; every list operation in the
    source returns an array, so the default is never relied on). -/
def arrLength : JsonVal → Nat
  | JsonVal.arr l => l.length
  | _ => 0

mutual
/-- JS `String(v)` conversion / template-literal interpolation, for the
    values reachable in the source (scalar tokens and identifiers; arrays
    join their elements with commas, rendering null elements as the empty
    string, and objects render as the fixed object tag). -/
def jsString : JsonVal → String
  | JsonVal.null => "null"
  | JsonVal.bool true => "true"
  | JsonVal.bool false => "false"
  | JsonVal.num n => toString n
  | JsonVal.str s => s
  | JsonVal.arr l => jsStringList l
  | JsonVal.obj _ => "[object Object]"

/-- Comma-joined rendering of array elements, as in JS Array.toString. -/
def jsStringList : List JsonVal → String
  | [] => ""
  | [JsonVal.null] => ""
  | [v] => jsString v
  | JsonVal.null :: rest => "," ++ jsStringList rest
  | v :: rest => jsString v ++ "," ++ jsStringList rest
end

/-! ## HTTP transport wrapper (`request`, apiService.js lines 167-227)

The fetch outcome is the model's oracle: either the awaited fetch (or the
body read) threw, or a response arrived with an HTTP status and a body
text.  The body text is represented by its parse outcome: empty text,
non-empty text that JSON.parse rejects, or a parsed value. -/

/-- The raw response text, by its JSON.parse outcome. -/
inductive BodyText where
  | empty
  | invalid
  | valid (v : JsonVal)

/-- Lines 193-199: `json = text ? JSON.parse(text) : null`, with a parse
    error caught and replaced by null. -/
def parseBody : BodyText → JsonVal
  | BodyText.empty => JsonVal.null
  | BodyText.invalid => JsonVal.null
  | BodyText.valid v => v

/-- Outcome of the awaited fetch: a thrown error with its message, or a
    response with status and body text. -/
inductive FetchOutcome where
  | thrown (msg : String)
  | resp (status : Nat) (body : BodyText)

/-- `res.ok`: HTTP status in the 2xx range. -/
def statusOk (s : Nat) : Bool :=
  decide (200 ≤ s ∧ s ≤ 299)

/-- The value returned by `request(method, endpoint, body)` as a function of
    the fetch outcome (the method, endpoint and request body do not affect
    the returned value; the headers are modelled by `requestHeaders`). -/
def request (outcome : FetchOutcome) : JsonVal :=
  match outcome with
  | FetchOutcome.thrown msg =>
      JsonVal.obj [("success", JsonVal.bool false),
                   ("error", JsonVal.str msg),
                   ("networkError", JsonVal.bool true)]
  | FetchOutcome.resp status body =>
      let json := parseBody body
      if !statusOk status then
        JsonVal.obj [("success", JsonVal.bool false),
                     ("error", jsOr (json.get? "error")
                       (JsonVal.str ("Request failed with status " ++ toString status))),
                     ("status", JsonVal.num (Int.ofNat status)),
                     ("data", json)]
      else
        if json.truthy then json else JsonVal.obj [("success", JsonVal.bool true)]

/-- Headers built by `request` (lines 172-178): Content-Type always, and
    Authorization only when the module-level `authToken` is truthy. The
    token is a JS value (null when absent), interpolated into the Bearer
    string by a template literal. -/
def requestHeaders (authToken : JsonVal) : List (String × String) :=
  ("Content-Type", "application/json") ::
    (if authToken.truthy then [("Authorization", "Bearer " ++ jsString authToken)] else [])

/-- Headers built by `verifyTokenWithBackend` (lines 149-155): the token
    travels in the JSON body, and the only header is Content-Type — no
    Authorization header, whatever token is held. -/
def verifyTokenHeaders (_authToken : JsonVal) : List (String × String) :=
  [("Content-Type", "application/json")]

/-! ## Token lifecycle (apiService.js lines 113-142)

The module-level mutable `authToken` (a JS value, null when absent) and the
single AsyncStorage entry become an explicit state record. Storage-write
failures are logged and swallowed in the source, so the state transition is
the successful-write one. -/

/-- The in-memory token (JS null when absent) and the durable storage entry
    under the fixed key (absent when removed). -/
structure AuthState where
  authToken : JsonVal
  storage : Option JsonVal

/-- Lines 113-126: assign the in-memory token unconditionally, then persist
    it when truthy and remove the stored entry otherwise. -/
def setAuthToken (token : JsonVal) (_st : AuthState) : AuthState :=
  { authToken := token,
    storage := if token.truthy then some token else none }

/-- Lines 129-137: null out the in-memory token and remove the stored entry. -/
def clearAuthToken (_st : AuthState) : AuthState :=
  { authToken := JsonVal.null, storage := none }

/-- Lines 140-142: pure read of the in-memory token. -/
def getCurrentToken (st : AuthState) : JsonVal :=
  st.authToken

/-! ## Login flow (apiService.js lines 397-464)

The two network interactions are oracles: `loginResult` is what
`request("POST", "/login", ...)` returned and `verifyResult` is what
`verifyTokenWithBackend` returned for the freshly-set token. -/

/-- Lines 437-463: the role-branching tail of `login`. In JS the `token`,
    `technician` and `customer` fields of the returned object are
    `undefined` when absent from the backend result; they are modelled as
    null (no claim distinguishes the two). -/
def loginRoles (result : JsonVal) (st : AuthState) : JsonVal × AuthState :=
  if strictEqStr (result.get? "role") "admin" then
    (JsonVal.obj [("success", JsonVal.bool true),
                  ("role", JsonVal.str "admin"),
                  ("token", (result.get? "token").getD JsonVal.null)], st)
  else if strictEqStr (result.get? "role") "tech" && truthyOpt (result.get? "technician") then
    (JsonVal.obj [("success", JsonVal.bool true),
                  ("role", JsonVal.str "tech"),
                  ("token", (result.get? "token").getD JsonVal.null),
                  ("technician", (result.get? "technician").getD JsonVal.null)], st)
  else if strictEqStr (result.get? "role") "customer" && truthyOpt (result.get? "customer") then
    (JsonVal.obj [("success", JsonVal.bool true),
                  ("role", JsonVal.str "customer"),
                  ("token", (result.get? "token").getD JsonVal.null),
                  ("customer", (result.get? "customer").getD JsonVal.null)], st)
  else
    (JsonVal.obj [("success", JsonVal.bool false),
                  ("error", JsonVal.str "Invalid credentials")], st)

/-- Lines 397-464: `login(email, password)`. Returns the value handed back
    to the caller together with the token state after the call. -/
def login (loginResult verifyResult : JsonVal) (st : AuthState) : JsonVal × AuthState :=
  if !loginResult.truthy || !truthyOpt (loginResult.get? "success") then
    (loginResult, st)
  else if truthyOpt (loginResult.get? "token") then
    let tok := (loginResult.get? "token").getD JsonVal.null
    let st1 := setAuthToken tok st
    if (getCurrentToken st1).truthy then
      if !truthyOpt (verifyResult.get? "success") then
        (JsonVal.obj [("success", JsonVal.bool false),
                      ("error", JsonVal.str "Token validation failed. Please try again.")],
         clearAuthToken st1)
      else
        loginRoles loginResult st1
    else
      loginRoles loginResult st1
  else
    loginRoles loginResult st

/-! ## List operations and their shape probing

Each list operation takes the value returned by `request` and yields the JS
array handed to the caller. In the source every return site of these
functions returns an array, so each is factored as the selected element
list wrapped in a single array constructor. -/

/-- Lines 521-529: the per-customer field reconciliation of `getCustomers`.
    Faithful for non-null elements only: in JS the unguarded property access
    `c.customerId` at line 522 throws a TypeError when the selected array
    contains a null element, a path this total function does not model —
    the count theorem therefore assumes well-formed (non-null) elements,
    and nothing here is claimed about responses whose payload array holds
    a null. -/
def formatCustomer (c : JsonVal) : JsonVal :=
  JsonVal.obj [
    ("customerId", JsonVal.str (jsString
      (jsCoalesce (c.get? "customerId")
        (jsCoalesce (c.get? "id")
          (jsCoalesce (c.get? "customer_id") (JsonVal.str "")))))),
    ("customerName", jsCoalesce (c.get? "customerName")
      (jsCoalesce (c.get? "name")
        (jsCoalesce (c.get? "customer_name") (JsonVal.str "Unknown Customer")))),
    ("email", jsCoalesce (c.get? "email") (JsonVal.str "")),
    ("address", jsCoalesce (c.get? "address") (JsonVal.str "")),
    ("telephone", jsCoalesce (c.get? "telephone") (JsonVal.str "")),
    ("complianceValidUntil", jsCoalesce (c.get? "complianceValidUntil")
      (jsCoalesce (c.get? "compliance_valid_until") JsonVal.null)),
    ("maps", match getArr? (c.get? "maps") with
             | some l => JsonVal.arr l
             | none => JsonVal.arr [])]

/-- Lines 496-516: the element-list selection of `getCustomers`: an explicit
    failure envelope yields the empty list, then the shapes are probed in
    order (bare array, data field, customers field, success-plus-data). -/
def getCustomersArray (res : JsonVal) : List JsonVal :=
  if res.truthy && strictFalse (res.get? "success") then []
  else
    match res with
    | JsonVal.arr l => l
    | _ =>
      if res.truthy then
        match getArr? (res.get? "data") with
        | some l => l
        | none =>
          match getArr? (res.get? "customers") with
          | some l => l
          | none =>
            if truthyOpt (res.get? "success") && truthyOpt (res.get? "data") then
              match getArr? (res.get? "data") with
              | some l => l
              | none => []
            else []
      else []

/-- Lines 487-534: `getCustomers`, element selection followed by the
    per-element formatter. -/
def getCustomers (res : JsonVal) : JsonVal :=
  JsonVal.arr ((getCustomersArray res).map formatCustomer)

/-- Lines 644-662: the element-list selection of `getTechnicians`. The shape
    probes run before the explicit `success === false` check; that check and
    the final fallthrough both return the empty list. -/
def getTechniciansArray (res : JsonVal) : List JsonVal :=
  if !res.truthy then []
  else
    match res with
    | JsonVal.arr l => l
    | _ =>
      match getArr? (res.get? "technicians") with
      | some l => l
      | none =>
        match (if truthyOpt (res.get? "success") then getArr? (res.get? "data") else none) with
        | some l => l
        | none => []

/-- Lines 629-663: `getTechnicians` returns the selected elements as-is. -/
def getTechnicians (res : JsonVal) : JsonVal :=
  JsonVal.arr (getTechniciansArray res)

/-- Lines 947-965: the element-list selection of `getChemicals`, identical in
    structure to the technicians one with the `chemicals` field. -/
def getChemicalsArray (res : JsonVal) : List JsonVal :=
  if !res.truthy then []
  else
    match res with
    | JsonVal.arr l => l
    | _ =>
      match getArr? (res.get? "chemicals") with
      | some l => l
      | none =>
        match (if truthyOpt (res.get? "success") then getArr? (res.get? "data") else none) with
        | some l => l
        | none => []

/-- Lines 934-966: `getChemicals` returns the selected elements as-is. -/
def getChemicals (res : JsonVal) : JsonVal :=
  JsonVal.arr (getChemicalsArray res)

/-- Modelled from the spec: `normalizeAppointment` is imported from
    ./normalizeAppointment, a module of this repository that is not present
    under src/. Per the spec it maps one raw appointment element to one flat
    record, coalescing alternate field spellings and normalizing absent
    optional fields to null; the claims rely only on its totality (one
    output record per input element). -/
def normalizeAppointment (a : JsonVal) : JsonVal :=
  JsonVal.obj [
    ("id", jsCoalesce (a.get? "id") (jsCoalesce (a.get? "appointmentId") JsonVal.null)),
    ("customerId", jsCoalesce (a.get? "customerId")
      (jsCoalesce (a.get? "customer_id") JsonVal.null)),
    ("date", jsCoalesce (a.get? "date") JsonVal.null),
    ("time", jsCoalesce (a.get? "time") JsonVal.null),
    ("serviceType", jsCoalesce (a.get? "serviceType")
      (jsCoalesce (a.get? "service_type") JsonVal.null)),
    ("status", jsCoalesce (a.get? "status") JsonVal.null)]

/-- Lines 785-796: the element-list selection of `getAppointments` (bare
    array, appointments field, truthy-success-plus-data, else empty). -/
def getAppointmentsArray (res : JsonVal) : List JsonVal :=
  match res with
  | JsonVal.arr l => l
  | _ =>
    if res.truthy then
      match getArr? (res.get? "appointments") with
      | some l => l
      | none =>
        match (if truthyOpt (res.get? "success") then getArr? (res.get? "data") else none) with
        | some l => l
        | none => []
    else []

/-- Lines 775-801: `getAppointments`, element selection followed by the
    per-element appointment normalizer. -/
def getAppointments (res : JsonVal) : JsonVal :=
  JsonVal.arr ((getAppointmentsArray res).map normalizeAppointment)

/-- Lines 892-922: the element-list selection of `getBaitTypes`: strict
    success with baitTypes, bare array, baitTypes without success, strict
    success with data, strict success with types, else empty. -/
def getBaitTypesArray (res : JsonVal) : List JsonVal :=
  match (if strictTrue (res.get? "success") then getArr? (res.get? "baitTypes") else none) with
  | some l => l
  | none =>
    match res with
    | JsonVal.arr l => l
    | _ =>
      match getArr? (res.get? "baitTypes") with
      | some l => l
      | none =>
        match (if strictTrue (res.get? "success") then getArr? (res.get? "data") else none) with
        | some l => l
        | none =>
          match (if strictTrue (res.get? "success") then getArr? (res.get? "types") else none) with
          | some l => l
          | none => []

/-- Lines 876-928: `getBaitTypes` returns the selected elements as-is (the
    surrounding try/catch returns the empty array only if the body throws,
    which the total selection cannot). -/
def getBaitTypes (res : JsonVal) : JsonVal :=
  JsonVal.arr (getBaitTypesArray res)

/-- Lines 1359-1360 and 1374-1375: `typeof item === "string" ? item :
    (item.name || item)`. -/
def nameOfItem (item : JsonVal) : JsonVal :=
  match item with
  | JsonVal.str s => JsonVal.str s
  | v => jsOr (v.get? "name") v

/-- Lines 1355-1368: `getBaitTypeNames` probes the result of `getBaitTypes`
    for a success field and a nested types array before extracting names,
    falling back to the empty list. -/
def getBaitTypeNames (res : JsonVal) : JsonVal :=
  let result := getBaitTypes res
  match (if truthyOpt (result.get? "success") then getArr? (result.get? "types") else none) with
  | some l => JsonVal.arr (l.map nameOfItem)
  | none => JsonVal.arr []

/-- Lines 1370-1383: `getChemicalNames`, same structure over `getChemicals`
    and the chemicals field. -/
def getChemicalNames (res : JsonVal) : JsonVal :=
  let result := getChemicals res
  match (if truthyOpt (result.get? "success") then getArr? (result.get? "chemicals") else none) with
  | some l => JsonVal.arr (l.map nameOfItem)
  | none => JsonVal.arr []

/-! ## Station-log fallback chain (`logBaitStation`, apiService.js lines 1111-1176)

The transport is an oracle mapping endpoint and payload to the call's
outcome: `Except.ok` the value `request` returned, or `Except.error` a
thrown message (each try block catches a throw and falls through to the
next). The operation is modelled together with the trace of calls it
issues, so that the claims about which endpoints are attempted are
statable. -/

/-- One transport call: the endpoint attempted and the payload posted. -/
structure Call where
  endpoint : String
  payload : JsonVal

/-- Lines 1114-1129: the station payload built from the caller's data. In JS
    the fields copied without a default are `undefined` when absent; they
    are modelled as null (no claim distinguishes the two). -/
def stationData (data : JsonVal) : JsonVal :=
  JsonVal.obj [
    ("timestamp", (data.get? "timestamp").getD JsonVal.null),
    ("customerId", (data.get? "customerId").getD JsonVal.null),
    ("customerName", jsOr (data.get? "customerName") (JsonVal.str "")),
    ("stationId", (data.get? "stationId").getD JsonVal.null),
    ("stationType", JsonVal.str "BS"),
    ("consumption", jsOr (data.get? "consumption") (JsonVal.str "")),
    ("baitType", jsOr (data.get? "baitType") (JsonVal.str "")),
    ("condition", jsOr (data.get? "condition") (JsonVal.str "")),
    ("access", jsOr (data.get? "access") (JsonVal.str "")),
    ("technicianId", (data.get? "technicianId").getD JsonVal.null),
    ("technicianName", jsOr (data.get? "technicianName") (JsonVal.str "")),
    ("appointmentId", jsOr (data.get? "appointmentId") (JsonVal.str "")),
    ("visitId", (data.get? "visitId").getD JsonVal.null),
    ("isVisitSummary", JsonVal.bool false)]

/-- Lines 1161-1165: the spread of the station payload with the two
    discriminator fields appended (neither key occurs in `stationData`, so
    the spread is an append). -/
def augmentStationData : JsonVal → JsonVal
  | JsonVal.obj fs =>
      JsonVal.obj (fs ++ [("action", JsonVal.str "station-log"),
                          ("serviceType", JsonVal.str "myocide")])
  | v => v

/-- Whether a transport outcome is a returned value whose success field is
    truthy, together with that value (the `result?.success` guard). -/
def succRes : Except String JsonVal → Option JsonVal
  | Except.ok v => if truthyOpt (v.get? "success") then some v else none
  | Except.error _ => none

/-- Lines 1159-1175: the third try block of `logBaitStation`: post the
    augmented payload to /log and return the result verbatim; a throw is
    caught and becomes the no-endpoint failure envelope. -/
def logStep3 (sd : JsonVal) (tr : String → JsonVal → Except String JsonVal)
    (prev : List Call) : JsonVal × List Call :=
  let fd := augmentStationData sd
  match tr "/log" fd with
  | Except.ok v => (v, prev ++ [Call.mk "/log" fd])
  | Except.error _ =>
      (JsonVal.obj [("success", JsonVal.bool false),
                    ("error", JsonVal.str "No endpoint available to save station data")],
       prev ++ [Call.mk "/log" fd])

/-- Lines 1148-1157: the second try block of `logBaitStation`: post to
    /log-station, return on a truthy success, otherwise (non-success or
    throw) fall through to the third block. -/
def logStep2 (sd : JsonVal) (tr : String → JsonVal → Except String JsonVal)
    (prev : List Call) : JsonVal × List Call :=
  match tr "/log-station" sd with
  | Except.ok v =>
      if truthyOpt (v.get? "success") then (v, prev ++ [Call.mk "/log-station" sd])
      else logStep3 sd tr (prev ++ [Call.mk "/log-station" sd])
  | Except.error _ => logStep3 sd tr (prev ++ [Call.mk "/log-station" sd])

/-- Lines 1111-1176: `logBaitStation` — build the station payload, then try
    /station-logs, /log-station and /log in order as above. Returns the
    value handed to the caller and the trace of transport calls. -/
def logBaitStation (data : JsonVal) (tr : String → JsonVal → Except String JsonVal) :
    JsonVal × List Call :=
  let sd := stationData data
  match tr "/station-logs" sd with
  | Except.ok v =>
      if truthyOpt (v.get? "success") then (v, [Call.mk "/station-logs" sd])
      else logStep2 sd tr [Call.mk "/station-logs" sd]
  | Except.error _ => logStep2 sd tr [Call.mk "/station-logs" sd]

/-! ## Concrete inputs used by the witness theorems -/

/-- A well-formed raw customer element in the legacy field spelling. -/
def cW : JsonVal :=
  JsonVal.obj [("id", JsonVal.str "5"), ("name", JsonVal.str "Acme")]

/-- A successful login response carrying a token and the admin role. -/
def lrW : JsonVal :=
  JsonVal.obj [("success", JsonVal.bool true), ("token", JsonVal.str "tok-1"),
               ("role", JsonVal.str "admin")]

/-- A failed token-verification response. -/
def vrW : JsonVal :=
  JsonVal.obj [("success", JsonVal.bool false)]

/-- A raw station-log input. -/
def dataW : JsonVal :=
  JsonVal.obj [("stationId", JsonVal.str "S1"), ("customerId", JsonVal.str "5")]

/-- A transport where /station-logs answers with a failure envelope,
    /log-station throws, and /log succeeds. -/
def trW1 : String → JsonVal → Except String JsonVal := fun e _ =>
  if e == "/station-logs" then
    Except.ok (JsonVal.obj [("success", JsonVal.bool false), ("error", JsonVal.str "nope")])
  else if e == "/log-station" then
    Except.error "Network request failed"
  else
    Except.ok (JsonVal.obj [("success", JsonVal.bool true), ("visitId", JsonVal.num 7)])

/-- A transport where /station-logs answers without a success field and
    /log-station succeeds. -/
def trW2 : String → JsonVal → Except String JsonVal := fun e _ =>
  if e == "/station-logs" then Except.ok (JsonVal.obj [])
  else Except.ok (JsonVal.obj [("success", JsonVal.bool true)])

/-! ## Helper lemmas -/

/-- Selection on a bare array response in `getCustomers`. -/
theorem getCustomersArray_bare (elems : List JsonVal) :
    getCustomersArray (JsonVal.arr elems) = elems := rfl

/-- Selection on a data-field response in `getCustomers`. -/
theorem getCustomersArray_data (elems : List JsonVal) :
    getCustomersArray (JsonVal.obj [("data", JsonVal.arr elems)]) = elems := rfl

/-- Selection on a customers-field response in `getCustomers`. -/
theorem getCustomersArray_domain (elems : List JsonVal) :
    getCustomersArray (JsonVal.obj [("customers", JsonVal.arr elems)]) = elems := rfl

/-- Selection on a success-plus-data response in `getCustomers`. -/
theorem getCustomersArray_success_data (elems : List JsonVal) :
    getCustomersArray (JsonVal.obj [("success", JsonVal.bool true),
      ("data", JsonVal.arr elems)]) = elems := rfl

/-- Selection on a bare array response in `getTechnicians`. -/
theorem getTechniciansArray_bare (elems : List JsonVal) :
    getTechniciansArray (JsonVal.arr elems) = elems := rfl

/-- Selection on a technicians-field response in `getTechnicians`. -/
theorem getTechniciansArray_domain (elems : List JsonVal) :
    getTechniciansArray (JsonVal.obj [("technicians", JsonVal.arr elems)]) = elems := rfl

/-- Selection on a success-plus-data response in `getTechnicians`. -/
theorem getTechniciansArray_success_data (elems : List JsonVal) :
    getTechniciansArray (JsonVal.obj [("success", JsonVal.bool true),
      ("data", JsonVal.arr elems)]) = elems := rfl

/-- Selection on a bare array response in `getChemicals`. -/
theorem getChemicalsArray_bare (elems : List JsonVal) :
    getChemicalsArray (JsonVal.arr elems) = elems := rfl

/-- Selection on a chemicals-field response in `getChemicals`. -/
theorem getChemicalsArray_domain (elems : List JsonVal) :
    getChemicalsArray (JsonVal.obj [("chemicals", JsonVal.arr elems)]) = elems := rfl

/-- Selection on a success-plus-data response in `getChemicals`. -/
theorem getChemicalsArray_success_data (elems : List JsonVal) :
    getChemicalsArray (JsonVal.obj [("success", JsonVal.bool true),
      ("data", JsonVal.arr elems)]) = elems := rfl

/-- Selection on a bare array response in `getAppointments`. -/
theorem getAppointmentsArray_bare (elems : List JsonVal) :
    getAppointmentsArray (JsonVal.arr elems) = elems := rfl

/-- Selection on an appointments-field response in `getAppointments`. -/
theorem getAppointmentsArray_domain (elems : List JsonVal) :
    getAppointmentsArray (JsonVal.obj [("appointments", JsonVal.arr elems)]) = elems := rfl

/-- Selection on a success-plus-data response in `getAppointments`. -/
theorem getAppointmentsArray_success_data (elems : List JsonVal) :
    getAppointmentsArray (JsonVal.obj [("success", JsonVal.bool true),
      ("data", JsonVal.arr elems)]) = elems := rfl

/-- Selection on a bare array response in `getBaitTypes`. -/
theorem getBaitTypesArray_bare (elems : List JsonVal) :
    getBaitTypesArray (JsonVal.arr elems) = elems := rfl

/-- Selection on a baitTypes-field response in `getBaitTypes`. -/
theorem getBaitTypesArray_domain (elems : List JsonVal) :
    getBaitTypesArray (JsonVal.obj [("baitTypes", JsonVal.arr elems)]) = elems := rfl

/-- Selection on a success-plus-data response in `getBaitTypes`. -/
theorem getBaitTypesArray_success_data (elems : List JsonVal) :
    getBaitTypesArray (JsonVal.obj [("success", JsonVal.bool true),
      ("data", JsonVal.arr elems)]) = elems := rfl

/-- Length of the array `getCustomers` returns, in terms of its selection. -/
theorem arrLength_getCustomers (res : JsonVal) :
    arrLength (getCustomers res) = (getCustomersArray res).length := by
  simp [getCustomers, arrLength]

/-- Length of the array `getTechnicians` returns, in terms of its selection. -/
theorem arrLength_getTechnicians (res : JsonVal) :
    arrLength (getTechnicians res) = (getTechniciansArray res).length := rfl

/-- Length of the array `getChemicals` returns, in terms of its selection. -/
theorem arrLength_getChemicals (res : JsonVal) :
    arrLength (getChemicals res) = (getChemicalsArray res).length := rfl

/-- Length of the array `getAppointments` returns, in terms of its selection. -/
theorem arrLength_getAppointments (res : JsonVal) :
    arrLength (getAppointments res) = (getAppointmentsArray res).length := by
  simp [getAppointments, arrLength]

/-- Length of the array `getBaitTypes` returns, in terms of its selection. -/
theorem arrLength_getBaitTypes (res : JsonVal) :
    arrLength (getBaitTypes res) = (getBaitTypesArray res).length := rfl

/-- The third try block always records its /log attempt with the augmented
    payload. -/
theorem logStep3_log_mem (sd : JsonVal) (tr : String → JsonVal → Except String JsonVal)
    (prev : List Call) :
    Call.mk "/log" (augmentStationData sd) ∈ (logStep3 sd tr prev).2 := by
  unfold logStep3
  cases h3 : tr "/log" (augmentStationData sd) <;> simp [h3]

/-- The third try block returns the /log result verbatim when the call
    returns. -/
theorem logStep3_ok (sd : JsonVal) (tr : String → JsonVal → Except String JsonVal)
    (prev : List Call) (v : JsonVal)
    (h : tr "/log" (augmentStationData sd) = Except.ok v) :
    (logStep3 sd tr prev).1 = v := by
  simp [logStep3, h]

/-- A non-success /log-station outcome makes the second block fall through
    to the third. -/
theorem logStep2_of_none (sd : JsonVal) (tr : String → JsonVal → Except String JsonVal)
    (prev : List Call) (h : succRes (tr "/log-station" sd) = none) :
    logStep2 sd tr prev = logStep3 sd tr (prev ++ [Call.mk "/log-station" sd]) := by
  cases h2 : tr "/log-station" sd with
  | error m => simp [logStep2, h2]
  | ok v =>
    rw [h2] at h
    by_cases ht : truthyOpt (v.get? "success")
    · simp [succRes, ht] at h
    · simp [logStep2, h2, ht]

/-- A successful /log-station outcome is returned by the second block, with
    no further call. -/
theorem logStep2_of_some (sd : JsonVal) (tr : String → JsonVal → Except String JsonVal)
    (prev : List Call) (v : JsonVal) (h : succRes (tr "/log-station" sd) = some v) :
    logStep2 sd tr prev = (v, prev ++ [Call.mk "/log-station" sd]) := by
  cases h2 : tr "/log-station" sd with
  | error m => rw [h2] at h; simp [succRes] at h
  | ok w =>
    rw [h2] at h
    by_cases ht : truthyOpt (w.get? "success")
    · simp [succRes, ht] at h
      subst h
      simp [logStep2, h2, ht]
    · simp [succRes, ht] at h

/-- A non-success /station-logs outcome makes `logBaitStation` fall through
    to the second block. -/
theorem logBaitStation_of_none (data : JsonVal)
    (tr : String → JsonVal → Except String JsonVal)
    (h : succRes (tr "/station-logs" (stationData data)) = none) :
    logBaitStation data tr
      = logStep2 (stationData data) tr [Call.mk "/station-logs" (stationData data)] := by
  cases h1 : tr "/station-logs" (stationData data) with
  | error m => simp [logBaitStation, h1]
  | ok v =>
    rw [h1] at h
    by_cases ht : truthyOpt (v.get? "success")
    · simp [succRes, ht] at h
    · simp [logBaitStation, h1, ht]

/-- A successful /station-logs outcome is returned at once. -/
theorem logBaitStation_of_some (data : JsonVal)
    (tr : String → JsonVal → Except String JsonVal) (v : JsonVal)
    (h : succRes (tr "/station-logs" (stationData data)) = some v) :
    logBaitStation data tr = (v, [Call.mk "/station-logs" (stationData data)]) := by
  cases h1 : tr "/station-logs" (stationData data) with
  | error m => rw [h1] at h; simp [succRes] at h
  | ok w =>
    rw [h1] at h
    by_cases ht : truthyOpt (w.get? "success")
    · simp [succRes, ht] at h
      subst h
      simp [logBaitStation, h1, ht]
    · simp [succRes, ht] at h

/-! ## Claim theorems -/

/-- Claim C1 (amended): for a success response containing N well-formed
    (non-null) elements, getCustomers returns exactly N records for all four
    known shapes (bare array, data field, customers field, success plus
    data), while getTechnicians, getChemicals, getAppointments and
    getBaitTypes return exactly N records for the bare-array, domain-named
    field and success-plus-data shapes only — a bare data field without a
    truthy success yields the empty sequence for them (see the
    counterexample). -/
theorem listOps_shape_counts (elems : List JsonVal)
    (_h : ∀ c ∈ elems, c ≠ JsonVal.null) :
    arrLength (getCustomers (JsonVal.arr elems)) = elems.length
    ∧ arrLength (getCustomers (JsonVal.obj [("data", JsonVal.arr elems)])) = elems.length
    ∧ arrLength (getCustomers (JsonVal.obj [("customers", JsonVal.arr elems)])) = elems.length
    ∧ arrLength (getCustomers (JsonVal.obj [("success", JsonVal.bool true),
        ("data", JsonVal.arr elems)])) = elems.length
    ∧ arrLength (getTechnicians (JsonVal.arr elems)) = elems.length
    ∧ arrLength (getTechnicians (JsonVal.obj [("technicians", JsonVal.arr elems)]))
        = elems.length
    ∧ arrLength (getTechnicians (JsonVal.obj [("success", JsonVal.bool true),
        ("data", JsonVal.arr elems)])) = elems.length
    ∧ arrLength (getChemicals (JsonVal.arr elems)) = elems.length
    ∧ arrLength (getChemicals (JsonVal.obj [("chemicals", JsonVal.arr elems)]))
        = elems.length
    ∧ arrLength (getChemicals (JsonVal.obj [("success", JsonVal.bool true),
        ("data", JsonVal.arr elems)])) = elems.length
    ∧ arrLength (getAppointments (JsonVal.arr elems)) = elems.length
    ∧ arrLength (getAppointments (JsonVal.obj [("appointments", JsonVal.arr elems)]))
        = elems.length
    ∧ arrLength (getAppointments (JsonVal.obj [("success", JsonVal.bool true),
        ("data", JsonVal.arr elems)])) = elems.length
    ∧ arrLength (getBaitTypes (JsonVal.arr elems)) = elems.length
    ∧ arrLength (getBaitTypes (JsonVal.obj [("baitTypes", JsonVal.arr elems)]))
        = elems.length
    ∧ arrLength (getBaitTypes (JsonVal.obj [("success", JsonVal.bool true),
        ("data", JsonVal.arr elems)])) = elems.length := by
  refine ⟨?_, ?_, ?_, ?_, ?_, ?_, ?_, ?_, ?_, ?_, ?_, ?_, ?_, ?_, ?_, ?_⟩
  · rw [arrLength_getCustomers, getCustomersArray_bare]
  · rw [arrLength_getCustomers, getCustomersArray_data]
  · rw [arrLength_getCustomers, getCustomersArray_domain]
  · rw [arrLength_getCustomers, getCustomersArray_success_data]
  · rw [arrLength_getTechnicians, getTechniciansArray_bare]
  · rw [arrLength_getTechnicians, getTechniciansArray_domain]
  · rw [arrLength_getTechnicians, getTechniciansArray_success_data]
  · rw [arrLength_getChemicals, getChemicalsArray_bare]
  · rw [arrLength_getChemicals, getChemicalsArray_domain]
  · rw [arrLength_getChemicals, getChemicalsArray_success_data]
  · rw [arrLength_getAppointments, getAppointmentsArray_bare]
  · rw [arrLength_getAppointments, getAppointmentsArray_domain]
  · rw [arrLength_getAppointments, getAppointmentsArray_success_data]
  · rw [arrLength_getBaitTypes, getBaitTypesArray_bare]
  · rw [arrLength_getBaitTypes, getBaitTypesArray_domain]
  · rw [arrLength_getBaitTypes, getBaitTypesArray_success_data]

/-- Claim C1 witness: a singleton well-formed element yields exactly one
    record through a data-field customers response and a bare-array
    technicians response. -/
theorem listOps_shape_counts_witness :
    arrLength (getCustomers (JsonVal.obj [("data", JsonVal.arr [cW])])) = 1
    ∧ arrLength (getTechnicians (JsonVal.arr [cW])) = 1 := by
  have h := listOps_shape_counts [cW] (by
    intro c hc
    rw [List.mem_singleton] at hc
    subst hc
    exact fun hn => JsonVal.noConfusion hn)
  exact ⟨h.2.1, h.2.2.2.2.1⟩

/-- Claim C1 counterexample: a data-field response with one well-formed
    element makes getTechnicians return the empty sequence, not one
    record. -/
theorem getTechnicians_data_shape_cex :
    getTechnicians (JsonVal.obj [("data",
      JsonVal.arr [JsonVal.obj [("id", JsonVal.num 1)]])]) = JsonVal.arr []
    ∧ arrLength (getTechnicians (JsonVal.obj [("data",
        JsonVal.arr [JsonVal.obj [("id", JsonVal.num 1)]])])) ≠ 1 :=
  ⟨rfl, by decide⟩

/-- Claim C2 (amended): on the explicit failure envelope with success false
    (with or without an error field, and no payload-array field) and on a
    response matching none of the known shapes (an object with no known
    field, a null response, a non-object response), every list operation
    returns the empty array — so on these responses it returns neither null
    nor undefined and does not raise, the selected element list being empty
    and no element formatter running. However, the shape probes of
    getTechnicians, getChemicals, getAppointments and getBaitTypes run
    before their success check, so a success-false response that also
    carries the domain-named array field returns that array (see the
    counterexample). -/
theorem listOps_failure_empty (e : String) :
    getCustomers (JsonVal.obj [("success", JsonVal.bool false)]) = JsonVal.arr []
    ∧ getCustomers (JsonVal.obj [("success", JsonVal.bool false),
        ("error", JsonVal.str e)]) = JsonVal.arr []
    ∧ getCustomers (JsonVal.obj [("unexpected", JsonVal.num 1)]) = JsonVal.arr []
    ∧ getCustomers JsonVal.null = JsonVal.arr []
    ∧ getCustomers (JsonVal.str "weird") = JsonVal.arr []
    ∧ getTechnicians (JsonVal.obj [("success", JsonVal.bool false)]) = JsonVal.arr []
    ∧ getTechnicians (JsonVal.obj [("success", JsonVal.bool false),
        ("error", JsonVal.str e)]) = JsonVal.arr []
    ∧ getTechnicians (JsonVal.obj [("unexpected", JsonVal.num 1)]) = JsonVal.arr []
    ∧ getTechnicians JsonVal.null = JsonVal.arr []
    ∧ getTechnicians (JsonVal.str "weird") = JsonVal.arr []
    ∧ getChemicals (JsonVal.obj [("success", JsonVal.bool false)]) = JsonVal.arr []
    ∧ getChemicals (JsonVal.obj [("success", JsonVal.bool false),
        ("error", JsonVal.str e)]) = JsonVal.arr []
    ∧ getChemicals (JsonVal.obj [("unexpected", JsonVal.num 1)]) = JsonVal.arr []
    ∧ getChemicals JsonVal.null = JsonVal.arr []
    ∧ getChemicals (JsonVal.str "weird") = JsonVal.arr []
    ∧ getAppointments (JsonVal.obj [("success", JsonVal.bool false)]) = JsonVal.arr []
    ∧ getAppointments (JsonVal.obj [("success", JsonVal.bool false),
        ("error", JsonVal.str e)]) = JsonVal.arr []
    ∧ getAppointments (JsonVal.obj [("unexpected", JsonVal.num 1)]) = JsonVal.arr []
    ∧ getAppointments JsonVal.null = JsonVal.arr []
    ∧ getAppointments (JsonVal.str "weird") = JsonVal.arr []
    ∧ getBaitTypes (JsonVal.obj [("success", JsonVal.bool false)]) = JsonVal.arr []
    ∧ getBaitTypes (JsonVal.obj [("success", JsonVal.bool false),
        ("error", JsonVal.str e)]) = JsonVal.arr []
    ∧ getBaitTypes (JsonVal.obj [("unexpected", JsonVal.num 1)]) = JsonVal.arr []
    ∧ getBaitTypes JsonVal.null = JsonVal.arr []
    ∧ getBaitTypes (JsonVal.str "weird") = JsonVal.arr [] :=
  ⟨rfl, rfl, rfl, rfl, rfl, rfl, rfl, rfl, rfl, rfl,
   rfl, rfl, rfl, rfl, rfl, rfl, rfl, rfl, rfl, rfl,
   rfl, rfl, rfl, rfl, rfl⟩

/-- Claim C2 counterexample: a response with success false that also carries
    the technicians array field makes getTechnicians return that array, not
    the empty sequence. -/
theorem getTechnicians_success_false_cex :
    getTechnicians (JsonVal.obj [("success", JsonVal.bool false),
      ("technicians", JsonVal.arr [JsonVal.obj [("id", JsonVal.num 1)]])])
      = JsonVal.arr [JsonVal.obj [("id", JsonVal.num 1)]]
    ∧ JsonVal.arr [JsonVal.obj [("id", JsonVal.num 1)]] ≠ JsonVal.arr [] :=
  ⟨rfl, by simp⟩

/-- Claim C3 (amended): on a non-2xx status, request returns a failure
    envelope whose success is false, whose status is the HTTP status code,
    whose data is the parsed body (null when absent or unparseable), and
    whose error is the backend-supplied error field when that field is
    present and truthy (non-empty), else the generic message built from the
    status code (a present but falsy error field also falls back to the
    generic message — see the counterexample). -/
theorem request_non2xx_envelope (s : Nat) (body : BodyText) (e : JsonVal)
    (h : statusOk s = false) :
    (request (FetchOutcome.resp s body)).get? "success" = some (JsonVal.bool false)
    ∧ (request (FetchOutcome.resp s body)).get? "status"
        = some (JsonVal.num (Int.ofNat s))
    ∧ (request (FetchOutcome.resp s body)).get? "data" = some (parseBody body)
    ∧ ((parseBody body).get? "error" = some e → e.truthy = true →
        (request (FetchOutcome.resp s body)).get? "error" = some e)
    ∧ ((parseBody body).get? "error" = none →
        (request (FetchOutcome.resp s body)).get? "error"
          = some (JsonVal.str ("Request failed with status " ++ toString s))) := by
  have hreq : request (FetchOutcome.resp s body)
      = JsonVal.obj [("success", JsonVal.bool false),
          ("error", jsOr ((parseBody body).get? "error")
            (JsonVal.str ("Request failed with status " ++ toString s))),
          ("status", JsonVal.num (Int.ofNat s)),
          ("data", parseBody body)] := by
    simp [request, h]
  refine ⟨?_, ?_, ?_, ?_, ?_⟩
  · rw [hreq]; rfl
  · rw [hreq]; rfl
  · rw [hreq]; rfl
  · intro he ht
    rw [hreq]
    show some (jsOr ((parseBody body).get? "error") _) = some e
    rw [he]
    simp [jsOr, ht]
  · intro he
    rw [hreq]
    show some (jsOr ((parseBody body).get? "error") _) = _
    rw [he]
    rfl

/-- Claim C3 witness: a 404 with body carrying error "Not found" yields the
    failure envelope with that error and status 404. -/
theorem request_non2xx_envelope_witness :
    (request (FetchOutcome.resp 404 (BodyText.valid
        (JsonVal.obj [("error", JsonVal.str "Not found")])))).get? "error"
      = some (JsonVal.str "Not found")
    ∧ (request (FetchOutcome.resp 404 (BodyText.valid
        (JsonVal.obj [("error", JsonVal.str "Not found")])))).get? "status"
      = some (JsonVal.num 404)
    ∧ (request (FetchOutcome.resp 404 (BodyText.valid
        (JsonVal.obj [("error", JsonVal.str "Not found")])))).get? "success"
      = some (JsonVal.bool false) := by
  have h := request_non2xx_envelope 404
    (BodyText.valid (JsonVal.obj [("error", JsonVal.str "Not found")]))
    (JsonVal.str "Not found") rfl
  exact ⟨h.2.2.2.1 rfl rfl, h.2.1, h.1⟩

/-- Claim C3 counterexample: the error field of the parsed body is present
    but empty, yet request reports the generic message, not the
    backend-supplied field. -/
theorem request_falsy_error_field_cex :
    (request (FetchOutcome.resp 404 (BodyText.valid
        (JsonVal.obj [("error", JsonVal.str "")])))).get? "error"
      = some (JsonVal.str "Request failed with status 404")
    ∧ JsonVal.str "Request failed with status 404" ≠ JsonVal.str "" :=
  ⟨rfl, by simp⟩

/-- Claim C4: request never raises — a thrown fetch becomes the
    network-error envelope, and a response body that is not valid JSON
    parses to a null payload, after which the call classifies by status as
    usual (a 2xx gives the minimal success envelope, a non-2xx gives the
    failure envelope with null data and the generic message). -/
theorem request_never_raises (msg : String) (s : Nat) :
    request (FetchOutcome.thrown msg)
      = JsonVal.obj [("success", JsonVal.bool false), ("error", JsonVal.str msg),
          ("networkError", JsonVal.bool true)]
    ∧ parseBody BodyText.invalid = JsonVal.null
    ∧ request (FetchOutcome.resp s BodyText.invalid)
        = (if statusOk s then JsonVal.obj [("success", JsonVal.bool true)]
           else JsonVal.obj [("success", JsonVal.bool false),
             ("error", JsonVal.str ("Request failed with status " ++ toString s)),
             ("status", JsonVal.num (Int.ofNat s)),
             ("data", JsonVal.null)]) := by
  refine ⟨rfl, rfl, ?_⟩
  cases h : statusOk s with
  | false => simp [request, parseBody, h, jsOr, JsonVal.get?, JsonVal.truthy]
  | true => simp [request, parseBody, h, JsonVal.truthy]

/-- Claim C5: logBaitStation tries /station-logs, /log-station and /log in
    that order: if the first two outcomes are non-success the third endpoint
    is attempted with the payload augmented by the discriminator fields; if
    the second endpoint succeeds the third is never called; and the first
    endpoint to return a truthy success determines the returned value. -/
theorem logBaitStation_fallback_chain (data : JsonVal)
    (tr : String → JsonVal → Except String JsonVal) :
    (succRes (tr "/station-logs" (stationData data)) = none →
      succRes (tr "/log-station" (stationData data)) = none →
      Call.mk "/log" (augmentStationData (stationData data))
        ∈ (logBaitStation data tr).2)
    ∧ ((succRes (tr "/log-station" (stationData data))).isSome = true →
        ∀ c ∈ (logBaitStation data tr).2, c.endpoint ≠ "/log")
    ∧ (∀ v, succRes (tr "/station-logs" (stationData data)) = some v →
        (logBaitStation data tr).1 = v)
    ∧ (∀ v, succRes (tr "/station-logs" (stationData data)) = none →
        succRes (tr "/log-station" (stationData data)) = some v →
        (logBaitStation data tr).1 = v)
    ∧ (∀ v, succRes (tr "/station-logs" (stationData data)) = none →
        succRes (tr "/log-station" (stationData data)) = none →
        tr "/log" (augmentStationData (stationData data)) = Except.ok v →
        (logBaitStation data tr).1 = v) := by
  refine ⟨?_, ?_, ?_, ?_, ?_⟩
  · intro hn1 hn2
    rw [logBaitStation_of_none data tr hn1, logStep2_of_none _ tr _ hn2]
    exact logStep3_log_mem _ tr _
  · intro hs2 c hc
    cases h1 : succRes (tr "/station-logs" (stationData data)) with
    | some v =>
      rw [logBaitStation_of_some data tr v h1] at hc
      rw [List.mem_singleton] at hc
      subst hc
      simp
    | none =>
      rcases Option.isSome_iff_exists.mp hs2 with ⟨w, hw⟩
      rw [logBaitStation_of_none data tr h1, logStep2_of_some _ tr _ w hw] at hc
      simp only [List.mem_append, List.mem_singleton] at hc
      rcases hc with hc | hc <;> subst hc <;> simp
  · intro v hs
    rw [logBaitStation_of_some data tr v hs]
  · intro v hn hs
    rw [logBaitStation_of_none data tr hn, logStep2_of_some _ tr _ v hs]
  · intro v hn1 hn2 h3
    rw [logBaitStation_of_none data tr hn1, logStep2_of_none _ tr _ hn2]
    exact logStep3_ok _ tr _ v h3

/-- Claim C5 witness: with a failing first endpoint, a throwing second and a
    succeeding third, the /log call with the augmented payload happens and
    its value is returned; with a succeeding second endpoint, /log is never
    called. -/
theorem logBaitStation_fallback_chain_witness :
    Call.mk "/log" (augmentStationData (stationData dataW))
      ∈ (logBaitStation dataW trW1).2
    ∧ (∀ c ∈ (logBaitStation dataW trW2).2, c.endpoint ≠ "/log")
    ∧ (logBaitStation dataW trW1).1
        = JsonVal.obj [("success", JsonVal.bool true), ("visitId", JsonVal.num 7)] := by
  have h1 := logBaitStation_fallback_chain dataW trW1
  have h2 := logBaitStation_fallback_chain dataW trW2
  exact ⟨h1.1 rfl rfl, h2.2.1 rfl, h1.2.2.2.2 _ rfl rfl rfl⟩

/-- Claim C6: when the login response is truthy-successful and carries a
    truthy token but token verification reports failure, login returns the
    failure envelope with the distinguishable error message, and afterwards
    the in-memory token is null and durable storage holds no token. -/
theorem login_token_verification_failure (lr vr : JsonVal) (st : AuthState)
    (h1 : lr.truthy = true)
    (h2 : truthyOpt (lr.get? "success") = true)
    (h3 : truthyOpt (lr.get? "token") = true)
    (h4 : truthyOpt (vr.get? "success") = false) :
    (login lr vr st).1 = JsonVal.obj [("success", JsonVal.bool false),
      ("error", JsonVal.str "Token validation failed. Please try again.")]
    ∧ getCurrentToken (login lr vr st).2 = JsonVal.null
    ∧ (login lr vr st).2.storage = none := by
  have htok : ((lr.get? "token").getD JsonVal.null).truthy = true := by
    cases hv : lr.get? "token" with
    | none => rw [hv] at h3; simp [truthyOpt] at h3
    | some v => rw [hv] at h3; simpa [truthyOpt] using h3
  simp [login, h1, h2, h3, h4, htok, setAuthToken, clearAuthToken, getCurrentToken]

/-- Claim C6 witness: a successful admin login response with a token and a
    failed verification yield the distinguishable failure and an absent
    token in both memory and storage. -/
theorem login_token_verification_failure_witness :
    (login lrW vrW (AuthState.mk JsonVal.null none)).1
      = JsonVal.obj [("success", JsonVal.bool false),
          ("error", JsonVal.str "Token validation failed. Please try again.")]
    ∧ getCurrentToken (login lrW vrW (AuthState.mk JsonVal.null none)).2 = JsonVal.null
    ∧ (login lrW vrW (AuthState.mk JsonVal.null none)).2.storage = none :=
  login_token_verification_failure lrW vrW (AuthState.mk JsonVal.null none)
    rfl rfl rfl rfl

/-- Claim C7 (amended): every request issued through the request wrapper
    carries the Authorization header Bearer-token exactly when a truthy
    token is held, and no Authorization header otherwise; the
    token-verification call does not go through the wrapper — it sends the
    token in the JSON body and attaches no Authorization header even when a
    token is held (see the counterexample). -/
theorem request_auth_header (t : String) :
    List.lookup "Authorization" (requestHeaders (JsonVal.str t))
      = (if t != "" then some ("Bearer " ++ t) else none)
    ∧ List.lookup "Authorization" (requestHeaders JsonVal.null) = none
    ∧ List.lookup "Authorization" (verifyTokenHeaders (JsonVal.str t)) = none := by
  refine ⟨?_, rfl, rfl⟩
  by_cases h : t = ""
  · subst h; rfl
  · have ht : (JsonVal.str t).truthy = true := by
      simp [JsonVal.truthy, h]
    simp [requestHeaders, ht, jsString, List.lookup, h]

/-- Claim C7 counterexample: with the token tok held, the verification
    request carries no Authorization header while the wrapper does. -/
theorem verify_token_no_auth_header_cex :
    List.lookup "Authorization" (verifyTokenHeaders (JsonVal.str "tok")) = none
    ∧ List.lookup "Authorization" (requestHeaders (JsonVal.str "tok"))
        = some "Bearer tok" :=
  ⟨rfl, rfl⟩

/-- Claim C8 (amended): for every token string t (empty included),
    setAuthToken t then getCurrentToken yields t; clearAuthToken then
    getCurrentToken yields null with empty storage; setAuthToken of an
    absent (null) token behaves exactly as a clear; setAuthToken of the
    empty string removes the stored token but leaves the in-memory token as
    the empty string (falsy, so no Authorization header is built from it),
    not null as a clear would (see the counterexample). -/
theorem token_roundtrip (t : String) (st : AuthState) :
    getCurrentToken (setAuthToken (JsonVal.str t) st) = JsonVal.str t
    ∧ (setAuthToken (JsonVal.str t) st).storage
        = (if t != "" then some (JsonVal.str t) else none)
    ∧ getCurrentToken (clearAuthToken st) = JsonVal.null
    ∧ (clearAuthToken st).storage = none
    ∧ setAuthToken JsonVal.null st = clearAuthToken st
    ∧ getCurrentToken (setAuthToken (JsonVal.str "") st) = JsonVal.str ""
    ∧ (setAuthToken (JsonVal.str "") st).storage = none :=
  ⟨rfl, rfl, rfl, rfl, rfl, rfl, rfl⟩

/-- Claim C8 counterexample: after setAuthToken of the empty string the
    current token is the empty string, which is not the null that an absent
    token (a clear) yields. -/
theorem setAuthToken_empty_not_clear_cex :
    getCurrentToken (setAuthToken (JsonVal.str "")
        (AuthState.mk (JsonVal.str "old") (some (JsonVal.str "old")))) = JsonVal.str ""
    ∧ JsonVal.str "" ≠ JsonVal.null :=
  ⟨rfl, fun hn => JsonVal.noConfusion hn⟩

/-- Claim C9 (amended): on a 2xx response, request returns the parsed body
    verbatim whenever it is truthy (any value other than null, false, zero
    or the empty string — including non-object values such as numbers and
    arrays), and returns the minimal success envelope when the body is
    absent, unparseable, or parses to a falsy value. -/
theorem request_2xx_passthrough (s : Nat) (v : JsonVal) (h : statusOk s = true) :
    request (FetchOutcome.resp s (BodyText.valid v))
      = (if v.truthy then v else JsonVal.obj [("success", JsonVal.bool true)])
    ∧ request (FetchOutcome.resp s BodyText.empty)
        = JsonVal.obj [("success", JsonVal.bool true)]
    ∧ request (FetchOutcome.resp s BodyText.invalid)
        = JsonVal.obj [("success", JsonVal.bool true)] := by
  refine ⟨?_, ?_, ?_⟩ <;> simp [request, parseBody, h, JsonVal.truthy]

/-- Claim C9 witness: a 200 whose body parses to an object is returned
    verbatim, and a 200 with an empty body yields the minimal success
    envelope. -/
theorem request_2xx_passthrough_witness :
    request (FetchOutcome.resp 200 (BodyText.valid
        (JsonVal.obj [("success", JsonVal.bool true), ("data", JsonVal.arr [])])))
      = JsonVal.obj [("success", JsonVal.bool true), ("data", JsonVal.arr [])]
    ∧ request (FetchOutcome.resp 200 BodyText.empty)
        = JsonVal.obj [("success", JsonVal.bool true)] := by
  have h := request_2xx_passthrough 200
    (JsonVal.obj [("success", JsonVal.bool true), ("data", JsonVal.arr [])]) rfl
  exact ⟨h.1, h.2.1⟩

/-- Claim C9 counterexample: a 2xx body parsing to the number five — a
    non-object — is returned verbatim, not replaced by the minimal success
    envelope. -/
theorem request_2xx_number_cex :
    request (FetchOutcome.resp 200 (BodyText.valid (JsonVal.num 5))) = JsonVal.num 5
    ∧ JsonVal.num 5 ≠ JsonVal.obj [("success", JsonVal.bool true)] :=
  ⟨rfl, fun hn => JsonVal.noConfusion hn⟩

/-- Claim C10: getBaitTypeNames and getChemicalNames return the empty list
    for every backend response: getBaitTypes and getChemicals always return
    a plain array, an array has no success field, so the name-extraction
    branch is unreachable and the fallback empty list is always returned. -/
theorem name_helpers_always_empty (res : JsonVal) :
    getBaitTypeNames res = JsonVal.arr []
    ∧ getChemicalNames res = JsonVal.arr [] :=
  ⟨rfl, rfl⟩

end ApiService
